import Mathlib

/-!
# Ex5.2: two triangles from two vertex arrays

A shallow embedding of `src/Ex5.2/main.cpp`.

The program is a straight line of calls into GLFW, glad and OpenGL followed by a
render loop.  Every function of the source becomes a Lean function that returns
the calls it issues, oldest first, next to its C++ return value.  What the
libraries answer (whether the window could be created, the object names the
driver hands out, compile and link statuses, the keyboard and the window
events of each loop iteration) is read from an `Env`.

`main` takes a fuel: the number of times the loop condition may be evaluated.
`none` stands for a run that has not returned within the fuel (or for a read
past the end of an array, which C++ leaves undefined).
-/

namespace Ex52

/-! ## Data model -/

/-- An OpenGL object name (`unsigned int`).  The program never computes with
names, it only stores and passes them, so no wrap-around is involved. -/
abbrev GLuint := Nat

/-- A `float` literal of the source, kept as written: every literal of the
source has at most one decimal digit, and the program performs no arithmetic on
them, so the literal `-0.9f` is `⟨-9⟩`, and `1.0f` is `⟨10⟩`. -/
structure GLfloat where
  tenths : Int
deriving DecidableEq, Repr

/-- The OpenGL enumerants the source names. -/
inductive GLenum where
  | GL_VERTEX_SHADER
  | GL_FRAGMENT_SHADER
  | GL_COMPILE_STATUS
  | GL_LINK_STATUS
  | GL_ARRAY_BUFFER
  | GL_STATIC_DRAW
  | GL_FLOAT
  | GL_TRIANGLES
  | GL_COLOR_BUFFER_BIT
deriving DecidableEq, Repr

/-- The GLFW constants the source names. -/
inductive GLFWenum where
  | GLFW_CONTEXT_VERSION_MAJOR
  | GLFW_CONTEXT_VERSION_MINOR
  | GLFW_OPENGL_PROFILE
  | GLFW_OPENGL_CORE_PROFILE
  | GLFW_KEY_ESCAPE
deriving DecidableEq, Repr

/-- The second argument of `glfwWindowHint`: a number or a GLFW constant. -/
inductive HintValue where
  | int (n : Int)
  | enum (e : GLFWenum)
deriving DecidableEq, Repr

/-- One call the program makes into GLFW, glad, OpenGL or the standard output.
The program has a single window, so the `GLFWwindow*` argument is left out.
An array argument (`n, pointer`) is recorded as `n` and the array pointed to. -/
inductive Call where
  | glfwInit
  | glfwWindowHint (hint : GLFWenum) (value : HintValue)
  | glfwCreateWindow (width height : Nat) (title : String)
  | glfwTerminate
  | glfwMakeContextCurrent
  | glfwSetFramebufferSizeCallback
  | gladLoadGLLoader
  | cout (text : String)
  | glCreateShader (shaderType : GLenum)
  | glShaderSource (shader : GLuint) (count : Nat) (strings : List String)
  | glCompileShader (shader : GLuint)
  | glGetShaderiv (shader : GLuint) (pname : GLenum)
  | glGetShaderInfoLog (shader : GLuint) (bufSize : Nat)
  | glCreateProgram
  | glAttachShader (program shader : GLuint)
  | glLinkProgram (program : GLuint)
  | glGetProgramiv (program : GLuint) (pname : GLenum)
  | glGetProgramInfoLog (program : GLuint) (bufSize : Nat)
  | glDeleteShader (shader : GLuint)
  | glGenVertexArrays (n : Nat)
  | glGenBuffers (n : Nat)
  | glBindVertexArray (array : GLuint)
  | glBindBuffer (target : GLenum) (buffer : GLuint)
  | glBufferData (target : GLenum) (size : Nat) (data : List GLfloat) (usage : GLenum)
  | glVertexAttribPointer (index : Nat) (size : Nat) (type : GLenum) (normalized : Bool)
      (stride : Nat) (pointer : Nat)
  | glEnableVertexAttribArray (index : Nat)
  | glfwWindowShouldClose
  | glfwGetKey (key : GLFWenum)
  | glfwSetWindowShouldClose (value : Bool)
  | glClearColor (red green blue alpha : GLfloat)
  | glClear (mask : GLenum)
  | glUseProgram (program : GLuint)
  | glDrawArrays (mode : GLenum) (first : Int) (count : Int)
  | glfwSwapBuffers
  | glfwPollEvents
  | glDeleteVertexArrays (n : Nat) (arrays : List GLuint)
  | glDeleteBuffers (n : Nat) (buffers : List GLuint)
  | glDeleteProgram (program : GLuint)
  | glViewport (x y width height : Int)
deriving DecidableEq, Repr

/-- What the libraries and the user answer during one run. -/
structure Env where
  /-- `glfwCreateWindow` returned a window (not `nullptr`). -/
  windowCreated : Bool
  /-- `gladLoadGLLoader` returned non-zero. -/
  gladLoaded : Bool
  /-- The name `glCreateShader` returns for a shader type. -/
  shaderName : GLenum → GLuint
  /-- The `GL_COMPILE_STATUS` the driver reports for a shader. -/
  compileStatus : GLuint → Bool
  /-- The text `glGetShaderInfoLog` writes into the 512-byte buffer. -/
  shaderInfoLog : GLuint → String
  /-- The name `glCreateProgram` returns. -/
  programName : GLuint
  /-- The `GL_LINK_STATUS` the driver reports for a program. -/
  linkStatus : GLuint → Bool
  /-- The text `glGetProgramInfoLog` writes into the 512-byte buffer. -/
  programInfoLog : GLuint → String
  /-- The two names `glGenVertexArrays(2, VAOs)` writes into `VAOs`. -/
  VAOs : GLuint × GLuint
  /-- The two names `glGenBuffers(2, VBOs)` writes into `VBOs`. -/
  VBOs : GLuint × GLuint
  /-- Whether `glfwGetKey(window, GLFW_KEY_ESCAPE)` answers `GLFW_PRESS` in
  loop iteration `i` (iterations count from 0). -/
  escapePressed : Nat → Bool
  /-- Whether `glfwPollEvents` of iteration `i` delivers a window-close event,
  which makes GLFW set the window's close flag. -/
  closeRequested : Nat → Bool
  /-- The framebuffer-size events `glfwPollEvents` of iteration `i` delivers to
  the registered callback, as (width, height), in order. -/
  resized : Nat → List (Int × Int)

/-- The state of the one GLFW window the program reads back: its close flag. -/
structure Window where
  shouldClose : Bool
deriving DecidableEq, Repr

/-! ## The program -/

/-- Line 16 of the source. -/
def screenWidth : Nat := 800

/-- Line 17 of the source. -/
def screenHeight : Nat := 600

/-- Line 18 of the source. -/
def screenTitle : String := "OpenGL"

/-- Lines 20-26 of the source (the C string ends at its first NUL). -/
def vertexShaderSource : String :=
  "#version 330 core\nlayout (location = 0) in vec3 aPos;\nvoid main()\n\x7b\n\tgl_Position = vec4(aPos.x, aPos.y, aPos.z, 1.0);\n\x7d"

/-- Lines 28-34 of the source (the C string ends at its first NUL). -/
def fragmentShaderSource : String :=
  "#version 330 core\nout vec4 FragColor;\nvoid main()\n\x7b\n\tFragColor = vec4(1.0f, 0.5f, 0.2f, 1.0f);\n\x7d"

/-- Lines 81-86 of the source. -/
def firstTriangleVertices : List GLfloat :=
  [⟨-9⟩, ⟨-8⟩, ⟨0⟩,
   ⟨1⟩, ⟨-1⟩, ⟨0⟩,
   ⟨-4⟩, ⟨4⟩, ⟨0⟩]

/-- Lines 88-92 of the source. -/
def secondTriangleVertices : List GLfloat :=
  [⟨0⟩, ⟨4⟩, ⟨0⟩,
   ⟨8⟩, ⟨8⟩, ⟨0⟩,
   ⟨4⟩, ⟨-6⟩, ⟨0⟩]

/-- The value of `sizeof(float)`: 4 bytes. -/
def sizeofFloat : Nat := 4

/-- The value of `sizeof` applied to an array of floats. -/
def sizeofFloats (a : List GLfloat) : Nat := a.length * sizeofFloat

/-- Lines 137-140: `framebuffer_size_callback(window, width, height)`. -/
def framebuffer_size_callback (width height : Int) : List Call :=
  [.glViewport 0 0 width height]

/-- Lines 142-148: `processInput(window)`; `key` is whether `glfwGetKey`
answers `GLFW_PRESS`. -/
def processInput (key : Bool) (window : Window) : Window × List Call :=
  if key then
    ({ window with shouldClose := true },
      [.glfwGetKey .GLFW_KEY_ESCAPE, .glfwSetWindowShouldClose true])
  else
    (window, [.glfwGetKey .GLFW_KEY_ESCAPE])

/-- Lines 150-166: `createShader(shaderType, shaderSource)`. -/
def createShader (env : Env) (shaderType : GLenum) (shaderSource : String) :
    GLuint × List Call :=
  let shader := env.shaderName shaderType
  let calls : List Call :=
    [.glCreateShader shaderType, .glShaderSource shader 1 [shaderSource],
     .glCompileShader shader, .glGetShaderiv shader .GL_COMPILE_STATUS]
  let success := env.compileStatus shader
  if !success then
    (shader, calls ++
      [.glGetShaderInfoLog shader 512,
       .cout ("ERROR::SHADER::VERTEX::COMPILATION_FAILED\n" ++ env.shaderInfoLog shader ++ "\n")])
  else
    (shader, calls)

/-- The loop `for (int i = 0; i < count; ++i) f(shaders[i]);` of lines 174-177
and 198-201, started at index `i` with `n` rounds to go.  Reading past the end
of the array has no result. -/
def forEachShader (f : GLuint → Call) (shaders : List GLuint) : Nat → Nat → Option (List Call)
  | _, 0 => some []
  | i, n + 1 =>
    match shaders[i]? with
    | none => none
    | some s => (forEachShader f shaders (i + 1) n).map (fun rest => f s :: rest)

/-- Lines 168-192: `createShaderProgram(shaders, count)`; `shaders` is `none`
for `nullptr`. -/
def createShaderProgram (env : Env) (shaders : Option (List GLuint)) (count : Int) :
    Option (GLuint × List Call) :=
  let shaderProgram := env.programName
  match shaders with
  | none => some (shaderProgram, [.glCreateProgram])
  | some arr =>
    if count > 0 then
      match forEachShader (.glAttachShader shaderProgram) arr 0 count.toNat with
      | none => none
      | some attach =>
        let calls : List Call :=
          [.glCreateProgram] ++ attach ++
            [.glLinkProgram shaderProgram, .glGetProgramiv shaderProgram .GL_LINK_STATUS]
        let success := env.linkStatus shaderProgram
        if !success then
          some (shaderProgram, calls ++
            [.glGetProgramInfoLog shaderProgram 512,
             .cout ("ERROR::SHADER::PROGRAM::LINKING_FAILED\n" ++
               env.programInfoLog shaderProgram ++ "\n")])
        else
          some (shaderProgram, calls)
    else
      some (shaderProgram, [.glCreateProgram])

/-- Lines 194-203: `deleteShaders(shaders, count)`; `shaders` is `none` for
`nullptr`. -/
def deleteShaders (shaders : Option (List GLuint)) (count : Int) : Option (List Call) :=
  match shaders with
  | none => some []
  | some arr =>
    if count > 0 then forEachShader .glDeleteShader arr 0 count.toNat
    else some []

/-- Lines 205-218: `bindVertexData(VBO, VAO, vertices, size)`. -/
def bindVertexData (VBO VAO : GLuint) (vertices : List GLfloat) (size : Nat) : List Call :=
  [.glBindVertexArray VAO,
   .glBindBuffer .GL_ARRAY_BUFFER VBO,
   .glBufferData .GL_ARRAY_BUFFER size vertices .GL_STATIC_DRAW,
   .glVertexAttribPointer 0 3 .GL_FLOAT false 0 0,
   .glEnableVertexAttribArray 0,
   .glBindBuffer .GL_ARRAY_BUFFER 0,
   .glBindVertexArray 0]

/-- The callbacks `glfwPollEvents` runs for the framebuffer-size events it
delivers (the callback registered at line 57). -/
def deliverResizes (events : List (Int × Int)) : List Call :=
  events.flatMap (fun e => framebuffer_size_callback e.1 e.2)

/-- Lines 103-124: the body of the render loop, in iteration `i`. -/
def loopBody (env : Env) (shaderProgram : GLuint) (VAOs : GLuint × GLuint) (i : Nat)
    (window : Window) : Window × List Call :=
  let (window, input) := processInput (env.escapePressed i) window
  let calls : List Call :=
    input ++
    [.glClearColor ⟨2⟩ ⟨3⟩ ⟨3⟩ ⟨10⟩,
     .glClear .GL_COLOR_BUFFER_BIT,
     .glUseProgram shaderProgram,
     .glBindVertexArray VAOs.1,
     .glDrawArrays .GL_TRIANGLES 0 3,
     .glBindVertexArray VAOs.2,
     .glDrawArrays .GL_TRIANGLES 0 3,
     .glfwSwapBuffers,
     .glfwPollEvents] ++
    deliverResizes (env.resized i)
  ({ window with shouldClose := window.shouldClose || env.closeRequested i }, calls)

/-- Lines 101-125: `while (!glfwWindowShouldClose(window)) { ... }`, from
iteration `i` on.  Each evaluation of the condition takes one unit of fuel. -/
def renderLoop (env : Env) (shaderProgram : GLuint) (VAOs : GLuint × GLuint) :
    Nat → Nat → Window → Option (List Call)
  | 0, _, _ => none
  | fuel + 1, i, window =>
    if window.shouldClose then
      some [.glfwWindowShouldClose]
    else
      let (window, body) := loopBody env shaderProgram VAOs i window
      (renderLoop env shaderProgram VAOs fuel (i + 1) window).map
        (fun rest => .glfwWindowShouldClose :: body ++ rest)

/-- Lines 36-135: `main()`.  The result is the exit code and the calls made.
GLFW creates a window with its close flag clear, so the loop starts from
`shouldClose := false`. -/
def main (env : Env) (fuel : Nat) : Option (Int × List Call) :=
  let init : List Call :=
    [.glfwInit,
     .glfwWindowHint .GLFW_CONTEXT_VERSION_MAJOR (.int 3),
     .glfwWindowHint .GLFW_CONTEXT_VERSION_MINOR (.int 3),
     .glfwWindowHint .GLFW_OPENGL_PROFILE (.enum .GLFW_OPENGL_CORE_PROFILE),
     .glfwCreateWindow screenWidth screenHeight screenTitle]
  if !env.windowCreated then
    some (-1, init ++ [.cout "Failed to create GLFW window\n", .glfwTerminate])
  else
    let context : List Call :=
      [.glfwMakeContextCurrent, .glfwSetFramebufferSizeCallback, .gladLoadGLLoader]
    if !env.gladLoaded then
      some (-1, init ++ context ++ [.cout "Failed to initialize GLAD\n"])
    else
      let (vertexShader, c1) := createShader env .GL_VERTEX_SHADER vertexShaderSource
      let (fragmentShader, c2) := createShader env .GL_FRAGMENT_SHADER fragmentShaderSource
      let shaders := [vertexShader, fragmentShader]
      match createShaderProgram env (some shaders) 2 with
      | none => none
      | some (shaderProgram, c3) =>
        match deleteShaders (some shaders) 0 with
        | none => none
        | some c4 =>
          let VAOs := env.VAOs
          let VBOs := env.VBOs
          let gen : List Call := [.glGenVertexArrays 2, .glGenBuffers 2]
          let b1 := bindVertexData VBOs.1 VAOs.1 firstTriangleVertices
            (sizeofFloats firstTriangleVertices)
          let b2 := bindVertexData VBOs.2 VAOs.2 secondTriangleVertices
            (sizeofFloats secondTriangleVertices)
          match renderLoop env shaderProgram VAOs fuel 0 { shouldClose := false } with
          | none => none
          | some loop =>
            some (0, init ++ context ++ c1 ++ c2 ++ c3 ++ c4 ++ gen ++ b1 ++ b2 ++ loop ++
              [.glDeleteVertexArrays 2 [VAOs.1, VAOs.2],
               .glDeleteBuffers 1 [VBOs.1, VBOs.2],
               .glDeleteProgram shaderProgram,
               .glfwTerminate])

/-! ## The OpenGL state the claims speak about

The part of the OpenGL 3.3 core state machine that the program's calls act on
and that the properties below read: the viewport and the vertex-specification
state (bindings, buffer data stores, vertex attribute arrays).  It is the
driver's behaviour as the OpenGL specification gives it, not code of the
repository; calls outside this part leave the modelled state unchanged. -/

/-- The data store of a buffer object. -/
structure BufferStore where
  /-- Size in bytes. -/
  size : Nat
  /-- The floats copied from client memory. -/
  data : List GLfloat
  usage : GLenum
deriving DecidableEq, Repr

/-- One generic vertex attribute array of a vertex array object: the arguments
of `glVertexAttribPointer` and the buffer bound to `GL_ARRAY_BUFFER` when it was
called. -/
structure VertexAttrib where
  size : Nat
  type : GLenum
  normalized : Bool
  stride : Nat
  pointer : Nat
  buffer : GLuint
deriving DecidableEq, Repr

/-- The modelled OpenGL state. -/
structure GLState where
  viewport : Int × Int × Int × Int
  vertexArrayBinding : GLuint
  arrayBufferBinding : GLuint
  bufferStore : GLuint → Option BufferStore
  attribPointer : GLuint → Nat → Option VertexAttrib
  attribEnabled : GLuint → Nat → Bool

/-- The state of a context nothing has been done to yet. -/
def glInitial : GLState where
  viewport := (0, 0, 800, 600)
  vertexArrayBinding := 0
  arrayBufferBinding := 0
  bufferStore := fun _ => none
  attribPointer := fun _ _ => none
  attribEnabled := fun _ _ => false

/-- The effect of one call on the modelled state.  A call the specification
rejects with an error (a negative viewport size, buffer data with no buffer
bound, attribute set-up with no vertex array bound) changes nothing.  Viewport
sizes are taken to lie within the implementation's maximum, so no clamping
occurs. -/
def glStep (st : GLState) : Call → GLState
  | .glViewport x y width height =>
    if width < 0 ∨ height < 0 then st else { st with viewport := (x, y, width, height) }
  | .glBindVertexArray array => { st with vertexArrayBinding := array }
  | .glBindBuffer .GL_ARRAY_BUFFER buffer => { st with arrayBufferBinding := buffer }
  | .glBufferData .GL_ARRAY_BUFFER size data usage =>
    if st.arrayBufferBinding = 0 then st
    else
      { st with
        bufferStore := fun b =>
          if b = st.arrayBufferBinding then
            some { size := size, data := data.take (size / sizeofFloat), usage := usage }
          else st.bufferStore b }
  | .glVertexAttribPointer index size type normalized stride pointer =>
    if st.vertexArrayBinding = 0 then st
    else
      { st with
        attribPointer := fun a i =>
          if a = st.vertexArrayBinding ∧ i = index then
            some { size := size, type := type, normalized := normalized, stride := stride,
                   pointer := pointer, buffer := st.arrayBufferBinding }
          else st.attribPointer a i }
  | .glEnableVertexAttribArray index =>
    if st.vertexArrayBinding = 0 then st
    else
      { st with
        attribEnabled := fun a i =>
          if a = st.vertexArrayBinding ∧ i = index then true else st.attribEnabled a i }
  | .glDeleteBuffers n buffers =>
    { st with
      arrayBufferBinding :=
        if st.arrayBufferBinding ∈ buffers.take n then 0 else st.arrayBufferBinding
      bufferStore := fun b => if b ∈ buffers.take n then none else st.bufferStore b }
  | .glDeleteVertexArrays n arrays =>
    { st with
      vertexArrayBinding :=
        if st.vertexArrayBinding ∈ arrays.take n then 0 else st.vertexArrayBinding
      attribPointer := fun a i => if a ∈ arrays.take n then none else st.attribPointer a i
      attribEnabled := fun a i => if a ∈ arrays.take n then false else st.attribEnabled a i }
  | _ => st

/-- The state after a sequence of calls. -/
def glExec (st : GLState) (calls : List Call) : GLState :=
  calls.foldl glStep st

/-- What one `glDrawArrays` call draws from: its arguments, the vertex array
bound at the time, that array's attribute 0, whether it is enabled, and the data
store of the buffer attribute 0 sources. -/
structure DrawRecord where
  mode : GLenum
  first : Int
  count : Int
  array : GLuint
  attrib : Option VertexAttrib
  enabled : Bool
  source : Option BufferStore
deriving DecidableEq, Repr

/-- The record of a `glDrawArrays(mode, first, count)` issued in state `st`. -/
def drawRecord (st : GLState) (mode : GLenum) (first count : Int) : DrawRecord where
  mode := mode
  first := first
  count := count
  array := st.vertexArrayBinding
  attrib := st.attribPointer st.vertexArrayBinding 0
  enabled := st.attribEnabled st.vertexArrayBinding 0
  source := (st.attribPointer st.vertexArrayBinding 0).bind (fun a => st.bufferStore a.buffer)

/-- The record of a call issued in state `st`, if it is a draw call. -/
def drawOf (st : GLState) : Call → List DrawRecord
  | .glDrawArrays mode first count => [drawRecord st mode first count]
  | _ => []

/-- The draw calls of a sequence of calls started in state `st`, each with
what it draws from, in order. -/
def drawRecords : GLState → List Call → List DrawRecord
  | _, [] => []
  | st, c :: rest => drawOf st c ++ drawRecords (glStep st c) rest

/-! ## Sample runs -/

/-- A run in which everything succeeds, Escape is down when the first iteration
reads the keyboard, and no window-close event ever arrives. -/
def escapeInFirstFrame : Env where
  windowCreated := true
  gladLoaded := true
  shaderName := fun t => if t = .GL_VERTEX_SHADER then 1 else 2
  compileStatus := fun _ => true
  shaderInfoLog := fun _ => ""
  programName := 3
  linkStatus := fun _ => true
  programInfoLog := fun _ => ""
  VAOs := (1, 2)
  VBOs := (1, 2)
  escapePressed := fun i => decide (i = 0)
  closeRequested := fun _ => false
  resized := fun _ => []

/-- A run in which both shaders fail to compile and the program fails to link,
and the user closes the window during the first frame. -/
def shadersFail : Env where
  windowCreated := true
  gladLoaded := true
  shaderName := fun t => if t = .GL_VERTEX_SHADER then 1 else 2
  compileStatus := fun _ => false
  shaderInfoLog := fun _ => "0:1: syntax error"
  programName := 3
  linkStatus := fun _ => false
  programInfoLog := fun _ => "link error"
  VAOs := (1, 2)
  VBOs := (1, 2)
  escapePressed := fun _ => false
  closeRequested := fun i => decide (i = 0)
  resized := fun _ => []

/-- A run in which `glfwCreateWindow` returns `nullptr`. -/
def noWindow : Env where
  windowCreated := false
  gladLoaded := false
  shaderName := fun _ => 0
  compileStatus := fun _ => false
  shaderInfoLog := fun _ => ""
  programName := 0
  linkStatus := fun _ => false
  programInfoLog := fun _ => ""
  VAOs := (0, 0)
  VBOs := (0, 0)
  escapePressed := fun _ => false
  closeRequested := fun _ => false
  resized := fun _ => []

/-- A run in which the window is created and `gladLoadGLLoader` fails. -/
def noLoader : Env where
  windowCreated := true
  gladLoaded := false
  shaderName := fun _ => 0
  compileStatus := fun _ => false
  shaderInfoLog := fun _ => ""
  programName := 0
  linkStatus := fun _ => false
  programInfoLog := fun _ => ""
  VAOs := (0, 0)
  VBOs := (0, 0)
  escapePressed := fun _ => false
  closeRequested := fun _ => false
  resized := fun _ => []

/-- A run in which everything succeeds and the user closes the window during
the first frame. -/
def closeAfterOneFrame : Env where
  windowCreated := true
  gladLoaded := true
  shaderName := fun t => if t = .GL_VERTEX_SHADER then 1 else 2
  compileStatus := fun _ => true
  shaderInfoLog := fun _ => ""
  programName := 3
  linkStatus := fun _ => true
  programInfoLog := fun _ => ""
  VAOs := (1, 2)
  VBOs := (1, 2)
  escapePressed := fun _ => false
  closeRequested := fun i => decide (i = 0)
  resized := fun _ => []

/-! ## Vocabulary of the statements -/

/-- Lines 40-47 as calls: GLFW start-up and window creation. -/
def initCalls : List Call :=
  [.glfwInit,
   .glfwWindowHint .GLFW_CONTEXT_VERSION_MAJOR (.int 3),
   .glfwWindowHint .GLFW_CONTEXT_VERSION_MINOR (.int 3),
   .glfwWindowHint .GLFW_OPENGL_PROFILE (.enum .GLFW_OPENGL_CORE_PROFILE),
   .glfwCreateWindow 800 600 "OpenGL"]

/-- Lines 56-61 as calls: the context, the resize callback, the loader. -/
def contextCalls : List Call :=
  [.glfwMakeContextCurrent, .glfwSetFramebufferSizeCallback, .gladLoadGLLoader]

/-- The calls of `createShaderProgram(shaders, 2)` on the array `[a, b]`. -/
def linkCalls (env : Env) (a b : GLuint) : List Call :=
  [.glCreateProgram,
   .glAttachShader env.programName a,
   .glAttachShader env.programName b,
   .glLinkProgram env.programName,
   .glGetProgramiv env.programName .GL_LINK_STATUS] ++
  (if env.linkStatus env.programName then []
   else [.glGetProgramInfoLog env.programName 512,
         .cout ("ERROR::SHADER::PROGRAM::LINKING_FAILED\n" ++
           env.programInfoLog env.programName ++ "\n")])

/-- Everything `main` calls in a run in which the window is created and
`gladLoadGLLoader` fails (lines 40-64). -/
def loaderFailureCalls : List Call :=
  initCalls ++ contextCalls ++ [.cout "Failed to initialize GLAD\n"]

/-- Everything `main` calls before the render loop (lines 40-99) in a run in
which the window is created and the loader succeeds. -/
def setupCalls (env : Env) : List Call :=
  initCalls ++ contextCalls ++
  (createShader env .GL_VERTEX_SHADER vertexShaderSource).2 ++
  (createShader env .GL_FRAGMENT_SHADER fragmentShaderSource).2 ++
  linkCalls env (env.shaderName .GL_VERTEX_SHADER) (env.shaderName .GL_FRAGMENT_SHADER) ++
  [.glGenVertexArrays 2, .glGenBuffers 2] ++
  bindVertexData env.VBOs.1 env.VAOs.1 firstTriangleVertices 36 ++
  bindVertexData env.VBOs.2 env.VAOs.2 secondTriangleVertices 36

/-- Everything `main` calls after the render loop (lines 127-133). -/
def shutdownCalls (env : Env) : List Call :=
  [.glDeleteVertexArrays 2 [env.VAOs.1, env.VAOs.2],
   .glDeleteBuffers 1 [env.VBOs.1, env.VBOs.2],
   .glDeleteProgram env.programName,
   .glfwTerminate]

/-- The calls of `processInput` when `glfwGetKey` answers `key`. -/
def inputCalls (key : Bool) : List Call :=
  if key then [.glfwGetKey .GLFW_KEY_ESCAPE, .glfwSetWindowShouldClose true]
  else [.glfwGetKey .GLFW_KEY_ESCAPE]

/-- One rendered frame: clear, program, two draws, present, poll. -/
def frameCalls (shaderProgram : GLuint) (VAOs : GLuint × GLuint) : List Call :=
  [.glClearColor ⟨2⟩ ⟨3⟩ ⟨3⟩ ⟨10⟩,
   .glClear .GL_COLOR_BUFFER_BIT,
   .glUseProgram shaderProgram,
   .glBindVertexArray VAOs.1,
   .glDrawArrays .GL_TRIANGLES 0 3,
   .glBindVertexArray VAOs.2,
   .glDrawArrays .GL_TRIANGLES 0 3,
   .glfwSwapBuffers,
   .glfwPollEvents]

/-- All calls of loop iteration `i`, from the evaluation of the loop condition
to the callbacks run by `glfwPollEvents`. -/
def iterationCalls (env : Env) (shaderProgram : GLuint) (VAOs : GLuint × GLuint) (i : Nat) :
    List Call :=
  [.glfwWindowShouldClose] ++ inputCalls (env.escapePressed i) ++
    frameCalls shaderProgram VAOs ++ deliverResizes (env.resized i)

/-- Whether a call is `glDrawArrays`. -/
def Call.isDraw : Call → Bool
  | .glDrawArrays _ _ _ => true
  | _ => false

/-- Whether a call clears, draws or presents. -/
def Call.isRender : Call → Bool
  | .glClear _ => true
  | .glDrawArrays _ _ _ => true
  | .glfwSwapBuffers => true
  | _ => false

/-- Whether a call belongs to the emission of a diagnostic: fetching an info
log or writing to the standard output. -/
def Call.isDiagnostic : Call → Bool
  | .glGetShaderInfoLog _ _ => true
  | .glGetProgramInfoLog _ _ => true
  | .cout _ => true
  | _ => false

/-- Whether a call is `glBufferData`. -/
def Call.isBufferData : Call → Bool
  | .glBufferData _ _ _ _ => true
  | _ => false

/-- Whether a call is `glfwTerminate`. -/
def Call.isTerminate : Call → Bool
  | .glfwTerminate => true
  | _ => false

/-- Whether a call is `glDeleteShader`. -/
def Call.isDeleteShader : Call → Bool
  | .glDeleteShader _ => true
  | _ => false

/-- The buffer names a sequence of calls deletes: `glDeleteBuffers(n, p)` deletes
the first `n` names of the array at `p`. -/
def deletedBuffers (calls : List Call) : List GLuint :=
  calls.flatMap (fun c =>
    match c with
    | .glDeleteBuffers n buffers => buffers.take n
    | _ => [])

/-- The vertex array names a sequence of calls deletes. -/
def deletedVertexArrays (calls : List Call) : List GLuint :=
  calls.flatMap (fun c =>
    match c with
    | .glDeleteVertexArrays n arrays => arrays.take n
    | _ => [])

/-- The same run with every compile status and the link status reporting
success. -/
def allSucceed (env : Env) : Env :=
  { env with compileStatus := fun _ => true, linkStatus := fun _ => true }

/-- The names the driver generated are as the OpenGL specification promises:
non-zero, and the two names of one `glGen*` call differ. -/
def Env.freshNames (env : Env) : Prop :=
  env.VAOs.1 ≠ 0 ∧ env.VAOs.2 ≠ 0 ∧ env.VAOs.1 ≠ env.VAOs.2 ∧
  env.VBOs.1 ≠ 0 ∧ env.VBOs.2 ≠ 0 ∧ env.VBOs.1 ≠ env.VBOs.2

/-- The two meshes are set up in state `st`: attribute 0 of `VAOs[i]` is
enabled and reads three floats per vertex, tightly packed, from `VBOs[i]`, whose
store holds the 36 bytes of the i-th triangle with static usage. -/
def MeshesReady (env : Env) (st : GLState) : Prop :=
  st.attribPointer env.VAOs.1 0 = some ⟨3, .GL_FLOAT, false, 0, 0, env.VBOs.1⟩ ∧
  st.attribPointer env.VAOs.2 0 = some ⟨3, .GL_FLOAT, false, 0, 0, env.VBOs.2⟩ ∧
  st.attribEnabled env.VAOs.1 0 = true ∧
  st.attribEnabled env.VAOs.2 0 = true ∧
  st.bufferStore env.VBOs.1 = some ⟨36, firstTriangleVertices, .GL_STATIC_DRAW⟩ ∧
  st.bufferStore env.VBOs.2 = some ⟨36, secondTriangleVertices, .GL_STATIC_DRAW⟩

/-- What the two draw calls of a frame draw from once the meshes are set up. -/
def frameRecords (env : Env) : List DrawRecord :=
  [{ mode := .GL_TRIANGLES, first := 0, count := 3, array := env.VAOs.1,
     attrib := some ⟨3, .GL_FLOAT, false, 0, 0, env.VBOs.1⟩, enabled := true,
     source := some ⟨36, firstTriangleVertices, .GL_STATIC_DRAW⟩ },
   { mode := .GL_TRIANGLES, first := 0, count := 3, array := env.VAOs.2,
     attrib := some ⟨3, .GL_FLOAT, false, 0, 0, env.VBOs.2⟩, enabled := true,
     source := some ⟨36, secondTriangleVertices, .GL_STATIC_DRAW⟩ }]

instance (env : Env) : Decidable env.freshNames := by
  unfold Env.freshNames
  infer_instance

/-! ## Lemmas on the program -/

theorem forEachShader_eq (f : GLuint → Call) (shaders : List GLuint) :
    ∀ n i, i + n ≤ shaders.length →
      forEachShader f shaders i n = some (((shaders.drop i).take n).map f)
  | 0, i, _ => by simp [forEachShader]
  | n + 1, i, h => by
    have hi : i < shaders.length := by omega
    have ih := forEachShader_eq f shaders n (i + 1) (by omega)
    rw [forEachShader, List.getElem?_eq_getElem hi]
    simp only [ih, Option.map_some']
    rw [List.drop_eq_getElem_cons hi, List.take_succ_cons, List.map_cons]

theorem createShaderProgram_two (env : Env) (a b : GLuint) :
    createShaderProgram env (some [a, b]) 2 = some (env.programName, linkCalls env a b) := by
  have h := forEachShader_eq (.glAttachShader env.programName) [a, b] 2 0 (by simp)
  simp only [List.drop_zero] at h
  have h2 : (2 : Int).toNat = 2 := rfl
  unfold createShaderProgram linkCalls
  simp only [h2, h]
  cases env.linkStatus env.programName <;> simp

theorem processInput_fst (key : Bool) (w : Window) :
    (processInput key w).1 = ⟨w.shouldClose || key⟩ := by
  cases key <;> cases w <;> simp [processInput]

theorem processInput_snd (key : Bool) (w : Window) :
    (processInput key w).2 = inputCalls key := by
  cases key <;> simp [processInput, inputCalls]

theorem loopBody_fst (env : Env) (p : GLuint) (v : GLuint × GLuint) (i : Nat) (w : Window) :
    (loopBody env p v i w).1 =
      ⟨w.shouldClose || env.escapePressed i || env.closeRequested i⟩ := by
  simp [loopBody, processInput_fst]

theorem loopBody_snd (env : Env) (p : GLuint) (v : GLuint × GLuint) (i : Nat) (w : Window) :
    .glfwWindowShouldClose :: (loopBody env p v i w).2 = iterationCalls env p v i := by
  simp [loopBody, processInput_snd, iterationCalls, frameCalls]

theorem renderLoop_closed (env : Env) (p : GLuint) (v : GLuint × GLuint) (fuel i : Nat)
    (w : Window) (h : w.shouldClose = true) :
    renderLoop env p v (fuel + 1) i w = some [.glfwWindowShouldClose] := by
  simp [renderLoop, h]

theorem renderLoop_open (env : Env) (p : GLuint) (v : GLuint × GLuint) (fuel i : Nat)
    (w : Window) (h : w.shouldClose = false) :
    renderLoop env p v (fuel + 1) i w =
      (renderLoop env p v fuel (i + 1) ⟨env.escapePressed i || env.closeRequested i⟩).map
        (fun rest => iterationCalls env p v i ++ rest) := by
  have h1 := loopBody_fst env p v i w
  have h2 := loopBody_snd env p v i w
  rw [h] at h1
  simp only [Bool.false_or] at h1
  rw [renderLoop]
  simp only [h, Bool.false_eq_true, if_false]
  rw [h1, ← h2]

theorem createShader_fst (env : Env) (shaderType : GLenum) (shaderSource : String) :
    (createShader env shaderType shaderSource).1 = env.shaderName shaderType := by
  cases h : env.compileStatus (env.shaderName shaderType) <;> simp [createShader, h]

theorem main_normal (env : Env) (fuel : Nat) (hw : env.windowCreated = true)
    (hg : env.gladLoaded = true) :
    main env fuel =
      (renderLoop env env.programName env.VAOs fuel 0 ⟨false⟩).map
        (fun loop => (0, setupCalls env ++ loop ++ shutdownCalls env)) := by
  unfold main
  simp only [hw, hg, Bool.not_true, Bool.false_eq_true, if_false]
  simp only [createShaderProgram_two, deleteShaders, createShader_fst]
  cases renderLoop env env.programName env.VAOs fuel 0 ⟨false⟩ <;>
    simp [setupCalls, shutdownCalls, initCalls, contextCalls, sizeofFloats, sizeofFloat,
      firstTriangleVertices, secondTriangleVertices, screenWidth, screenHeight, screenTitle]

theorem flatMap_range_succ (f : Nat → List Call) (n : Nat) :
    (List.range (n + 1)).flatMap f = f 0 ++ (List.range n).flatMap (fun k => f (k + 1)) := by
  rw [List.range_succ_eq_map, List.flatMap_cons, List.flatMap_map]

theorem renderLoop_trace (env : Env) (p : GLuint) (v : GLuint × GLuint) :
    ∀ fuel i w t, renderLoop env p v fuel i w = some t →
      ∃ n, t = (List.range n).flatMap (fun k => iterationCalls env p v (i + k)) ++
        [.glfwWindowShouldClose]
  | 0, _, _, _, h => by simp [renderLoop] at h
  | fuel + 1, i, w, t, h => by
    cases hc : w.shouldClose with
    | true =>
      rw [renderLoop_closed _ _ _ _ _ _ hc] at h
      exact ⟨0, by simpa using h.symm⟩
    | false =>
      rw [renderLoop_open _ _ _ _ _ _ hc] at h
      obtain ⟨rest, hr, rfl⟩ := Option.map_eq_some'.mp h
      obtain ⟨n, rfl⟩ := renderLoop_trace env p v fuel (i + 1) _ rest hr
      refine ⟨n + 1, ?_⟩
      rw [flatMap_range_succ]
      simp [Nat.add_assoc, Nat.add_comm 1]

theorem renderLoop_isSome (env : Env) (p : GLuint) (v : GLuint × GLuint) :
    ∀ m fuel i w, (env.escapePressed (i + m) = true ∨ env.closeRequested (i + m) = true) →
      m + 2 ≤ fuel → (renderLoop env p v fuel i w).isSome = true
  | m, 0, _, _, _, hf => by omega
  | m, fuel + 1, i, w, hm, hf => by
    cases hc : w.shouldClose with
    | true => rw [renderLoop_closed _ _ _ _ _ _ hc]; rfl
    | false =>
      rw [renderLoop_open _ _ _ _ _ _ hc, Option.isSome_map']
      cases m with
      | zero =>
        obtain ⟨f, rfl⟩ : ∃ f, fuel = f + 1 := ⟨fuel - 1, by omega⟩
        rw [renderLoop_closed]
        · rfl
        · simpa using hm
      | succ m =>
        apply renderLoop_isSome env p v m fuel (i + 1)
        · rw [Nat.add_assoc, Nat.add_comm 1]; exact hm
        · omega

theorem renderLoop_trace_pos (env : Env) (p : GLuint) (v : GLuint × GLuint) (fuel i : Nat)
    (t : List Call) (h : renderLoop env p v fuel i ⟨false⟩ = some t) :
    ∃ n, t = (List.range (n + 1)).flatMap (fun k => iterationCalls env p v (i + k)) ++
      [.glfwWindowShouldClose] := by
  cases fuel with
  | zero => simp [renderLoop] at h
  | succ fuel =>
    rw [renderLoop_open env p v fuel i ⟨false⟩ rfl] at h
    obtain ⟨rest, hr, rfl⟩ := Option.map_eq_some'.mp h
    obtain ⟨n, rfl⟩ := renderLoop_trace env p v fuel (i + 1) _ rest hr
    refine ⟨n, ?_⟩
    rw [flatMap_range_succ]
    simp [Nat.add_assoc, Nat.add_comm 1]

theorem renderLoop_run (env : Env) (p : GLuint) (v : GLuint × GLuint) :
    ∀ m i fuel,
      (∀ k, k < m → env.escapePressed (i + k) = false ∧ env.closeRequested (i + k) = false) →
      (env.escapePressed (i + m) = true ∨ env.closeRequested (i + m) = true) →
      m + 2 ≤ fuel →
      renderLoop env p v fuel i ⟨false⟩ =
        some ((List.range (m + 1)).flatMap (fun k => iterationCalls env p v (i + k)) ++
          [.glfwWindowShouldClose])
  | 0, i, fuel, _, hexit, hf => by
    obtain ⟨f, rfl⟩ : ∃ f, fuel = f + 2 := ⟨fuel - 2, by omega⟩
    have hr1 : List.range 1 = [0] := rfl
    rw [renderLoop_open env p v (f + 1) i ⟨false⟩ rfl, renderLoop_closed]
    · simp [hr1]
    · simpa using hexit
  | m + 1, i, fuel, hfirst, hexit, hf => by
    obtain ⟨f, rfl⟩ : ∃ f, fuel = f + 1 := ⟨fuel - 1, by omega⟩
    have h0 := hfirst 0 (Nat.succ_pos m)
    rw [Nat.add_zero] at h0
    have ih := renderLoop_run env p v m (i + 1) f
      (fun k hk => by
        have := hfirst (k + 1) (by omega)
        rwa [Nat.add_assoc, Nat.add_comm 1])
      (by rwa [Nat.add_assoc, Nat.add_comm 1])
      (by omega)
    rw [renderLoop_open env p v f i ⟨false⟩ rfl, h0.1, h0.2]
    simp only [Bool.or_self]
    rw [ih, flatMap_range_succ (fun k => iterationCalls env p v (i + k)) (m + 1)]
    simp [Nat.add_assoc, Nat.add_comm 1]

/-! ## Lemmas on the OpenGL state -/

theorem glExec_append (st : GLState) (a b : List Call) :
    glExec st (a ++ b) = glExec (glExec st a) b := by
  simp [glExec, List.foldl_append]

theorem drawRecords_append (a b : List Call) :
    ∀ st, drawRecords st (a ++ b) = drawRecords st a ++ drawRecords (glExec st a) b := by
  induction a with
  | nil => intro st; rfl
  | cons c a ih =>
    intro st
    show drawOf st c ++ drawRecords (glStep st c) (a ++ b) =
      (drawOf st c ++ drawRecords (glStep st c) a) ++ drawRecords (glExec (glStep st c) a) b
    rw [ih, List.append_assoc]

theorem glExec_deliverResizes (env : Env) (events : List (Int × Int)) :
    ∀ st, MeshesReady env st →
      MeshesReady env (glExec st (deliverResizes events)) ∧
      drawRecords st (deliverResizes events) = [] := by
  induction events with
  | nil => intro st h; exact ⟨h, rfl⟩
  | cons e events ih =>
    intro st h
    have hstep : MeshesReady env (glStep st (.glViewport 0 0 e.1 e.2)) := by
      simp only [glStep]
      split_ifs <;> exact h
    have := ih _ hstep
    simpa [deliverResizes, framebuffer_size_callback, glExec, drawRecords, drawOf] using this

theorem glExec_setupCalls (env : Env) (st : GLState) (hn : env.freshNames) :
    MeshesReady env (glExec st (setupCalls env)) ∧ drawRecords st (setupCalls env) = [] := by
  obtain ⟨ha1, ha2, ha, hb1, hb2, hb⟩ := hn
  constructor
  · simp only [setupCalls, initCalls, contextCalls, linkCalls, bindVertexData, createShader]
    split_ifs <;>
      simp [glExec, glStep, MeshesReady, ha1, ha2, ha, hb1, hb2, hb, Ne.symm ha, Ne.symm hb,
        firstTriangleVertices, secondTriangleVertices, sizeofFloat]
  · simp only [setupCalls, initCalls, contextCalls, linkCalls, bindVertexData, createShader]
    split_ifs <;> simp [drawRecords, drawOf]

theorem glExec_iterationCalls (env : Env) (i : Nat) (st : GLState) (h : MeshesReady env st) :
    MeshesReady env (glExec st (iterationCalls env env.programName env.VAOs i)) ∧
    drawRecords st (iterationCalls env env.programName env.VAOs i) = frameRecords env := by
  have hpre :
      MeshesReady env (glExec st ([.glfwWindowShouldClose] ++
        inputCalls (env.escapePressed i) ++ frameCalls env.programName env.VAOs)) ∧
      drawRecords st ([.glfwWindowShouldClose] ++ inputCalls (env.escapePressed i) ++
        frameCalls env.programName env.VAOs) = frameRecords env := by
    obtain ⟨h1, h2, h3, h4, h5, h6⟩ := h
    simp only [inputCalls, frameCalls]
    split_ifs <;>
      simp [glExec, glStep, drawRecords, drawOf, drawRecord, MeshesReady, frameRecords,
        h1, h2, h3, h4, h5, h6]
  have hres := glExec_deliverResizes env (env.resized i) _ hpre.1
  unfold iterationCalls
  rw [glExec_append, drawRecords_append, hres.2, hpre.2]
  exact ⟨hres.1, by simp⟩

theorem glExec_iterations (env : Env) (l : List Nat) :
    ∀ st, MeshesReady env st →
      MeshesReady env
        (glExec st (l.flatMap (fun k => iterationCalls env env.programName env.VAOs k))) ∧
      drawRecords st (l.flatMap (fun k => iterationCalls env env.programName env.VAOs k)) =
        l.flatMap (fun _ => frameRecords env) := by
  induction l with
  | nil => intro st h; exact ⟨h, rfl⟩
  | cons k l ih =>
    intro st h
    have h1 := glExec_iterationCalls env k st h
    have h2 := ih _ h1.1
    simp only [List.flatMap_cons, glExec_append, drawRecords_append, h1.2, h2.2]
    exact ⟨h2.1, trivial⟩

theorem drawRecords_normal (env : Env) (n : Nat) (st : GLState) (hn : env.freshNames) :
    drawRecords st
      (setupCalls env ++
        ((List.range n).flatMap (fun k => iterationCalls env env.programName env.VAOs (0 + k)) ++
          [.glfwWindowShouldClose]) ++ shutdownCalls env) =
      (List.range n).flatMap (fun _ => frameRecords env) := by
  have h1 := glExec_setupCalls env st hn
  have h2 := glExec_iterations env (List.range n) _ h1.1
  simp only [Nat.zero_add, drawRecords_append, h1.2, h2.2, List.nil_append]
  simp [drawRecords, drawOf, shutdownCalls]

/-! ## C1: exit codes -/

/-- C1. Whenever `main` returns, its exit code is -1 exactly when window
creation failed or function loading failed, and it is 0 otherwise, so no other
code occurs.  `main` does return on both failure paths whatever the fuel, and
in every other run it returns once an exit condition has come up: if Escape is
pressed or a close event arrives in iteration `n`, then `n + 2` evaluations of
the loop condition suffice. -/
theorem main_exit_code (env : Env) (fuel : Nat) :
    (∀ r, main env fuel = some r →
      (r.1 = -1 ↔ (env.windowCreated = false ∨ env.gladLoaded = false)) ∧
      (r.1 = -1 ∨ r.1 = 0)) ∧
    ((env.windowCreated = false ∨ env.gladLoaded = false) →
      (main env fuel).map Prod.fst = some (-1)) ∧
    (env.windowCreated = true → env.gladLoaded = true →
      ∀ n, (env.escapePressed n = true ∨ env.closeRequested n = true) → n + 2 ≤ fuel →
        (main env fuel).map Prod.fst = some 0) := by
  cases hw : env.windowCreated with
  | false => simp [main, hw]
  | true =>
    cases hg : env.gladLoaded with
    | false => simp [main, hw, hg]
    | true =>
      rw [main_normal env fuel hw hg]
      refine ⟨?_, by simp, ?_⟩
      · intro r hr
        obtain ⟨loop, -, rfl⟩ := Option.map_eq_some'.mp hr
        simp
      · intro _ _ n hn hf
        have h := renderLoop_isSome env env.programName env.VAOs n fuel 0 ⟨false⟩
          (by simpa using hn) hf
        obtain ⟨loop, hl⟩ := Option.isSome_iff_exists.mp h
        simp [hl]

/-- C1 at three concrete runs: a close after one frame gives 0, a failed
window creation and a failed loader give -1. -/
theorem main_exit_code_witness :
    (main closeAfterOneFrame 2).map Prod.fst = some 0 ∧
    (main noWindow 0).map Prod.fst = some (-1) ∧
    (main noLoader 0).map Prod.fst = some (-1) :=
  ⟨(main_exit_code closeAfterOneFrame 2).2.2 rfl rfl 0 (Or.inr rfl) (by decide),
   (main_exit_code noWindow 0).2.1 (Or.inl rfl),
   (main_exit_code noLoader 0).2.1 (Or.inr rfl)⟩

/-! ## C2: the calls of one loop iteration -/

/-- C2. In every run that reaches the render loop and returns, the calls of
`main` are the set-up calls, then some number `n` of loop iterations, then the
last evaluation of the loop condition and the shutdown calls.  Every iteration
consists of the loop condition, the keyboard query of `processInput`, then
`glClearColor(0.2, 0.3, 0.3, 1.0)` and `glClear(GL_COLOR_BUFFER_BIT)`, then
`glUseProgram` of the name `createShaderProgram` returned, then `VAOs[0]` bound
and `glDrawArrays(GL_TRIANGLES, 0, 3)`, then `VAOs[1]` bound and
`glDrawArrays(GL_TRIANGLES, 0, 3)`, then `glfwSwapBuffers` and `glfwPollEvents`
with the resize callbacks it runs; the keyboard query and the callbacks issue
no clear, draw or swap. -/
theorem render_iteration_calls (env : Env) (fuel : Nat) (code : Int) (trace : List Call)
    (hw : env.windowCreated = true) (hg : env.gladLoaded = true)
    (h : main env fuel = some (code, trace)) :
    (createShaderProgram env
        (some [(createShader env .GL_VERTEX_SHADER vertexShaderSource).1,
               (createShader env .GL_FRAGMENT_SHADER fragmentShaderSource).1]) 2).map Prod.fst
      = some env.programName ∧
    (∃ n, trace =
      setupCalls env ++
      (List.range n).flatMap (fun i =>
        [.glfwWindowShouldClose] ++ inputCalls (env.escapePressed i) ++
        [.glClearColor ⟨2⟩ ⟨3⟩ ⟨3⟩ ⟨10⟩,
         .glClear .GL_COLOR_BUFFER_BIT,
         .glUseProgram env.programName,
         .glBindVertexArray env.VAOs.1,
         .glDrawArrays .GL_TRIANGLES 0 3,
         .glBindVertexArray env.VAOs.2,
         .glDrawArrays .GL_TRIANGLES 0 3,
         .glfwSwapBuffers,
         .glfwPollEvents] ++
        deliverResizes (env.resized i)) ++
      [.glfwWindowShouldClose] ++ shutdownCalls env) ∧
    (∀ i, ∀ c ∈ inputCalls (env.escapePressed i) ++ deliverResizes (env.resized i),
      c.isRender = false) := by
  refine ⟨by simp [createShaderProgram_two], ?_, ?_⟩
  · rw [main_normal env fuel hw hg] at h
    obtain ⟨loop, hl, he⟩ := Option.map_eq_some'.mp h
    obtain ⟨n, rfl⟩ := renderLoop_trace env env.programName env.VAOs fuel 0 _ loop hl
    refine ⟨n, ?_⟩
    have := (Prod.mk.inj he).2
    rw [← this]
    simp [iterationCalls, frameCalls]
  · intro i c hc
    rw [List.mem_append] at hc
    rcases hc with hc | hc
    · cases hk : env.escapePressed i <;> simp [inputCalls, hk] at hc <;>
        rcases hc with rfl | rfl <;> rfl
    · simp only [deliverResizes, framebuffer_size_callback, List.mem_flatMap,
        List.mem_singleton] at hc
      obtain ⟨e, -, rfl⟩ := hc
      rfl

/-- C2 at a concrete run: one frame, then the window is closed. -/
theorem render_iteration_calls_witness :
    ∃ n, (setupCalls closeAfterOneFrame ++
        [.glfwWindowShouldClose, .glfwGetKey .GLFW_KEY_ESCAPE,
         .glClearColor ⟨2⟩ ⟨3⟩ ⟨3⟩ ⟨10⟩, .glClear .GL_COLOR_BUFFER_BIT, .glUseProgram 3,
         .glBindVertexArray 1, .glDrawArrays .GL_TRIANGLES 0 3,
         .glBindVertexArray 2, .glDrawArrays .GL_TRIANGLES 0 3,
         .glfwSwapBuffers, .glfwPollEvents, .glfwWindowShouldClose] ++
        shutdownCalls closeAfterOneFrame : List Call) =
      setupCalls closeAfterOneFrame ++
      (List.range n).flatMap (fun i =>
        [.glfwWindowShouldClose] ++ inputCalls (closeAfterOneFrame.escapePressed i) ++
        [.glClearColor ⟨2⟩ ⟨3⟩ ⟨3⟩ ⟨10⟩,
         .glClear .GL_COLOR_BUFFER_BIT,
         .glUseProgram closeAfterOneFrame.programName,
         .glBindVertexArray closeAfterOneFrame.VAOs.1,
         .glDrawArrays .GL_TRIANGLES 0 3,
         .glBindVertexArray closeAfterOneFrame.VAOs.2,
         .glDrawArrays .GL_TRIANGLES 0 3,
         .glfwSwapBuffers,
         .glfwPollEvents] ++
        deliverResizes (closeAfterOneFrame.resized i)) ++
      [.glfwWindowShouldClose] ++ shutdownCalls closeAfterOneFrame :=
  (render_iteration_calls closeAfterOneFrame 2 0 _ rfl rfl (by decide)).2.1

/-! ## C3: what shutdown deletes -/

/-- C3 (the code departs from the claim). In every run that reaches the render
loop and returns, the last four calls are `glDeleteVertexArrays(2, VAOs)`,
`glDeleteBuffers(1, VBOs)`, `glDeleteProgram(shaderProgram)` and
`glfwTerminate()`, in the order the claim gives.  Both vertex arrays are
deleted, but of the two buffers generated by `glGenBuffers(2, VBOs)` the run
deletes `VBOs[0]` only: `VBOs[1]` is deleted by no call. -/
theorem shutdown_deletes_one_buffer (env : Env) (fuel : Nat) (code : Int)
    (trace : List Call) (hw : env.windowCreated = true) (hg : env.gladLoaded = true)
    (h : main env fuel = some (code, trace)) :
    (∃ before, trace = before ++
      [.glDeleteVertexArrays 2 [env.VAOs.1, env.VAOs.2],
       .glDeleteBuffers 1 [env.VBOs.1, env.VBOs.2],
       .glDeleteProgram env.programName,
       .glfwTerminate]) ∧
    .glGenVertexArrays 2 ∈ trace ∧ .glGenBuffers 2 ∈ trace ∧
    deletedVertexArrays trace = [env.VAOs.1, env.VAOs.2] ∧
    deletedBuffers trace = [env.VBOs.1] := by
  rw [main_normal env fuel hw hg] at h
  obtain ⟨loop, hl, he⟩ := Option.map_eq_some'.mp h
  obtain ⟨n, rfl⟩ := renderLoop_trace env env.programName env.VAOs fuel 0 _ loop hl
  have ht := (Prod.mk.inj he).2
  subst ht
  have hi1 : ∀ k, deletedVertexArrays (iterationCalls env env.programName env.VAOs k) = [] := by
    intro k
    simp only [iterationCalls, inputCalls, frameCalls, deliverResizes,
      framebuffer_size_callback, deletedVertexArrays]
    split_ifs <;> simp [List.flatMap_assoc]
  have hi2 : ∀ k, deletedBuffers (iterationCalls env env.programName env.VAOs k) = [] := by
    intro k
    simp only [iterationCalls, inputCalls, frameCalls, deliverResizes,
      framebuffer_size_callback, deletedBuffers]
    split_ifs <;> simp [List.flatMap_assoc]
  have hs1 : deletedVertexArrays (setupCalls env) = [] := by
    simp only [setupCalls, initCalls, contextCalls, linkCalls, bindVertexData, createShader,
      deletedVertexArrays]
    split_ifs <;> simp
  have hs2 : deletedBuffers (setupCalls env) = [] := by
    simp only [setupCalls, initCalls, contextCalls, linkCalls, bindVertexData, createShader,
      deletedBuffers]
    split_ifs <;> simp
  refine ⟨⟨_, rfl⟩, ?_, ?_, ?_, ?_⟩
  · simp [setupCalls]
  · simp [setupCalls]
  · unfold deletedVertexArrays at hi1 hs1 ⊢
    simp [List.flatMap_assoc, hi1, hs1, shutdownCalls]
  · unfold deletedBuffers at hi2 hs2 ⊢
    simp [List.flatMap_assoc, hi2, hs2, shutdownCalls]

/-- C3 at the run `closeAfterOneFrame`, where `VBOs` is `[1, 2]`: buffer 1 is
deleted, buffer 2 is not. -/
theorem shutdown_deletes_one_buffer_witness :
    (main closeAfterOneFrame 2).map (fun r => deletedBuffers r.2) = some [1] ∧
    deletedBuffers
      (setupCalls closeAfterOneFrame ++ iterationCalls closeAfterOneFrame 3 (1, 2) 0 ++
        [.glfwWindowShouldClose] ++ shutdownCalls closeAfterOneFrame) = [1] :=
  ⟨by decide,
   (shutdown_deletes_one_buffer closeAfterOneFrame 2 0 _ rfl rfl (by decide)).2.2.2.2⟩

/-! ## C4: when the loop exits -/

/-- C4 fails as stated. In the run `escapeInFirstFrame` Escape is pressed at
the top of iteration 0 and the close flag is clear; the iteration still clears,
draws both triangles and presents the frame (four rendering calls), and the
loop exits only at the next evaluation of its condition. -/
theorem escape_frame_is_rendered :
    escapeInFirstFrame.escapePressed 0 = true ∧
    renderLoop escapeInFirstFrame 3 (1, 2) 2 0 ⟨false⟩ =
      some [.glfwWindowShouldClose,
            .glfwGetKey .GLFW_KEY_ESCAPE, .glfwSetWindowShouldClose true,
            .glClearColor ⟨2⟩ ⟨3⟩ ⟨3⟩ ⟨10⟩, .glClear .GL_COLOR_BUFFER_BIT,
            .glUseProgram 3,
            .glBindVertexArray 1, .glDrawArrays .GL_TRIANGLES 0 3,
            .glBindVertexArray 2, .glDrawArrays .GL_TRIANGLES 0 3,
            .glfwSwapBuffers, .glfwPollEvents,
            .glfwWindowShouldClose] ∧
    (renderLoop escapeInFirstFrame 3 (1, 2) 2 0 ⟨false⟩).map
        (fun t => (t.filter Call.isRender).length) = some 4 := by
  decide

/-- C4 as amended. At the top of an iteration the loop looks at the window's
close flag only.  If the flag is set, the loop exits with no further call: no
clear, no draw, no swap.  If the flag is clear, the iteration renders exactly
one frame (one clear, two draws, one swap), whether or not Escape is pressed,
and goes on with the flag set exactly when Escape was pressed in
`processInput` or a close event arrived in `glfwPollEvents`.  When Escape is
pressed in an iteration that started with the flag clear, that iteration is
the last: the loop exits at the next evaluation of its condition. -/
theorem renderLoop_exit_condition (env : Env) (p : GLuint) (v : GLuint × GLuint)
    (fuel i : Nat) (w : Window) :
    (w.shouldClose = true →
      renderLoop env p v (fuel + 1) i w = some [.glfwWindowShouldClose]) ∧
    (w.shouldClose = false →
      renderLoop env p v (fuel + 1) i w =
        (renderLoop env p v fuel (i + 1)
            ⟨env.escapePressed i || env.closeRequested i⟩).map
          (fun rest =>
            [.glfwWindowShouldClose] ++ inputCalls (env.escapePressed i) ++
              frameCalls p v ++ deliverResizes (env.resized i) ++ rest)) ∧
    (w.shouldClose = false → env.escapePressed i = true →
      renderLoop env p v (fuel + 2) i w =
        some ([.glfwWindowShouldClose] ++ inputCalls true ++ frameCalls p v ++
          deliverResizes (env.resized i) ++ [.glfwWindowShouldClose])) ∧
    (frameCalls p v).filter Call.isRender =
      [.glClear .GL_COLOR_BUFFER_BIT, .glDrawArrays .GL_TRIANGLES 0 3,
       .glDrawArrays .GL_TRIANGLES 0 3, .glfwSwapBuffers] ∧
    (∀ c ∈ [Call.glfwWindowShouldClose] ++ inputCalls (env.escapePressed i) ++
        deliverResizes (env.resized i), c.isRender = false) := by
  refine ⟨renderLoop_closed env p v fuel i w, ?_, ?_, by simp [frameCalls, Call.isRender], ?_⟩
  · intro hc
    rw [renderLoop_open env p v fuel i w hc]
    rfl
  · intro hc he
    rw [renderLoop_open env p v (fuel + 1) i w hc, renderLoop_closed]
    · simp [iterationCalls, he]
    · simp [he]
  · intro c hc
    simp only [List.mem_append, List.mem_singleton] at hc
    rcases hc with (rfl | hc) | hc
    · rfl
    · cases hk : env.escapePressed i <;> simp [inputCalls, hk] at hc <;>
        rcases hc with rfl | rfl <;> rfl
    · simp only [deliverResizes, framebuffer_size_callback, List.mem_flatMap,
        List.mem_singleton] at hc
      obtain ⟨e, -, rfl⟩ := hc
      rfl

/-- C4 as amended, at the run `escapeInFirstFrame`: iteration 0 starts with
the flag clear and Escape pressed, renders its frame and is the last one. -/
theorem renderLoop_exit_condition_witness :
    renderLoop escapeInFirstFrame 3 (1, 2) 2 0 ⟨false⟩ =
      some ([.glfwWindowShouldClose] ++ inputCalls true ++ frameCalls 3 (1, 2) ++
        deliverResizes (escapeInFirstFrame.resized 0) ++ [.glfwWindowShouldClose]) :=
  (renderLoop_exit_condition escapeInFirstFrame 3 (1, 2) 0 0 ⟨false⟩).2.2.1 rfl rfl

/-! ## C5: one frame, end to end -/

/-- C5. In a run in which the window is created and the loader succeeds, the
driver hands out names as OpenGL promises, and Escape or a close event comes
up in the first iteration, `main` returns 0 as soon as the fuel allows two
evaluations of the loop condition.  Its calls contain
`glfwCreateWindow(800, 600, "OpenGL")` and exactly two draw calls, both
`glDrawArrays(GL_TRIANGLES, 0, 3)`.  At the first the bound vertex array is
`VAOs[0]`, whose enabled attribute 0 reads from `VBOs[0]`, which holds the
nine floats of `firstTriangleVertices`; at the second it is `VAOs[1]`, reading
from `VBOs[1]`, which holds the nine floats of `secondTriangleVertices`. -/
theorem one_frame_end_to_end (env : Env) (fuel : Nat) (st : GLState)
    (hw : env.windowCreated = true) (hg : env.gladLoaded = true) (hn : env.freshNames)
    (hclose : env.escapePressed 0 = true ∨ env.closeRequested 0 = true) (hf : 2 ≤ fuel) :
    ∃ trace, main env fuel = some (0, trace) ∧
      .glfwCreateWindow 800 600 "OpenGL" ∈ trace ∧
      trace.filter Call.isDraw =
        [.glDrawArrays .GL_TRIANGLES 0 3, .glDrawArrays .GL_TRIANGLES 0 3] ∧
      drawRecords st trace =
        [{ mode := .GL_TRIANGLES, first := 0, count := 3, array := env.VAOs.1,
           attrib := some ⟨3, .GL_FLOAT, false, 0, 0, env.VBOs.1⟩, enabled := true,
           source := some ⟨36, firstTriangleVertices, .GL_STATIC_DRAW⟩ },
         { mode := .GL_TRIANGLES, first := 0, count := 3, array := env.VAOs.2,
           attrib := some ⟨3, .GL_FLOAT, false, 0, 0, env.VBOs.2⟩, enabled := true,
           source := some ⟨36, secondTriangleVertices, .GL_STATIC_DRAW⟩ }] ∧
      firstTriangleVertices.length = 9 ∧ secondTriangleVertices.length = 9 := by
  obtain ⟨f, rfl⟩ : ∃ f, fuel = f + 2 := ⟨fuel - 2, by omega⟩
  have hr1 : List.range 1 = [0] := rfl
  have hloop : renderLoop env env.programName env.VAOs (f + 2) 0 ⟨false⟩ =
      some ((List.range 1).flatMap
        (fun k => iterationCalls env env.programName env.VAOs (0 + k)) ++
        [.glfwWindowShouldClose]) := by
    rw [renderLoop_open env _ _ (f + 1) 0 ⟨false⟩ rfl, renderLoop_closed]
    · simp [hr1]
    · simpa using hclose
  refine ⟨_, by rw [main_normal env _ hw hg, hloop]; rfl, ?_, ?_, ?_, rfl, rfl⟩
  · simp [setupCalls, initCalls]
  · have hs : (setupCalls env).filter Call.isDraw = [] := by
      simp only [setupCalls, initCalls, contextCalls, linkCalls, bindVertexData, createShader]
      split_ifs <;> simp [Call.isDraw]
    simp only [hr1, List.flatMap_cons, List.flatMap_nil, List.append_nil, Nat.add_zero,
      List.filter_append, hs, iterationCalls, inputCalls, frameCalls, deliverResizes,
      framebuffer_size_callback]
    split_ifs <;> simp [Call.isDraw, List.filter_flatMap, shutdownCalls]
  · rw [drawRecords_normal env 1 st hn]
    simp [frameRecords, hr1]

/-- C5 at the run `closeAfterOneFrame`, with the state of a fresh context. -/
theorem one_frame_end_to_end_witness :
    ∃ trace, main closeAfterOneFrame 2 = some (0, trace) ∧
      .glfwCreateWindow 800 600 "OpenGL" ∈ trace ∧
      trace.filter Call.isDraw =
        [.glDrawArrays .GL_TRIANGLES 0 3, .glDrawArrays .GL_TRIANGLES 0 3] ∧
      drawRecords glInitial trace =
        [{ mode := .GL_TRIANGLES, first := 0, count := 3, array := 1,
           attrib := some ⟨3, .GL_FLOAT, false, 0, 0, 1⟩, enabled := true,
           source := some ⟨36, firstTriangleVertices, .GL_STATIC_DRAW⟩ },
         { mode := .GL_TRIANGLES, first := 0, count := 3, array := 2,
           attrib := some ⟨3, .GL_FLOAT, false, 0, 0, 2⟩, enabled := true,
           source := some ⟨36, secondTriangleVertices, .GL_STATIC_DRAW⟩ }] ∧
      firstTriangleVertices.length = 9 ∧ secondTriangleVertices.length = 9 :=
  one_frame_end_to_end closeAfterOneFrame 2 glInitial rfl rfl (by decide) (Or.inr rfl)
    (by decide)

/-! ## C6: upload size and draw count -/

/-- C6. `bindVertexData(VBO, VAO, vertices, size)` binds `VAO` and `VBO`,
uploads `size` bytes of `vertices` with `GL_STATIC_DRAW`, declares attribute 0
as three floats per vertex, tightly packed, enables it and unbinds.  Both
meshes of the program have 3 vertices given as 3 * 3 floats, that is
`length * 4 = 3 * 3 * 4` bytes.

In a run that gets past the loader, with names as OpenGL promises them: if the
first exit condition comes up in iteration `m` and the fuel allows `m + 2`
evaluations of the loop condition, `main` returns 0, its uploads are exactly
the two meshes, each with the size of its vertex list and static usage, and
its draw calls are exactly `m + 1` times the pair: a draw of 3 vertices from
`VAOs[0]`, whose enabled attribute 0 reads three floats per vertex from the 36
bytes of `VBOs[0]`, then a draw of 3 vertices from `VAOs[1]`, reading the 36
bytes of `VBOs[1]`.

Whenever such a run returns, it has rendered at least one frame, the draw call
of each of the two meshes is among its draw calls, and every draw call of the
run requests 3 vertices from an enabled attribute 0 of three floats whose
buffer store was uploaded with static usage, holds `length * 4` bytes, and has
12 times as many bytes as the draw call requests vertices. -/
theorem mesh_upload_matches_draw (env : Env) (fuel : Nat) (st : GLState)
    (hw : env.windowCreated = true) (hg : env.gladLoaded = true) (hn : env.freshNames) :
    (∀ VBO VAO vertices size,
      bindVertexData VBO VAO vertices size =
        [.glBindVertexArray VAO,
         .glBindBuffer .GL_ARRAY_BUFFER VBO,
         .glBufferData .GL_ARRAY_BUFFER size vertices .GL_STATIC_DRAW,
         .glVertexAttribPointer 0 3 .GL_FLOAT false 0 0,
         .glEnableVertexAttribArray 0,
         .glBindBuffer .GL_ARRAY_BUFFER 0,
         .glBindVertexArray 0]) ∧
    firstTriangleVertices.length = 3 * 3 ∧ secondTriangleVertices.length = 3 * 3 ∧
    firstTriangleVertices.length * 4 = 3 * 3 * 4 ∧
    secondTriangleVertices.length * 4 = 3 * 3 * 4 ∧
    (∀ m, (∀ k, k < m → env.escapePressed k = false ∧ env.closeRequested k = false) →
      (env.escapePressed m = true ∨ env.closeRequested m = true) → m + 2 ≤ fuel →
      ∃ trace, main env fuel = some (0, trace) ∧
        trace.filter Call.isBufferData =
          [.glBufferData .GL_ARRAY_BUFFER (firstTriangleVertices.length * 4)
             firstTriangleVertices .GL_STATIC_DRAW,
           .glBufferData .GL_ARRAY_BUFFER (secondTriangleVertices.length * 4)
             secondTriangleVertices .GL_STATIC_DRAW] ∧
        drawRecords st trace =
          (List.range (m + 1)).flatMap (fun _ =>
            [{ mode := .GL_TRIANGLES, first := 0, count := 3, array := env.VAOs.1,
               attrib := some ⟨3, .GL_FLOAT, false, 0, 0, env.VBOs.1⟩, enabled := true,
               source := some ⟨36, firstTriangleVertices, .GL_STATIC_DRAW⟩ },
             { mode := .GL_TRIANGLES, first := 0, count := 3, array := env.VAOs.2,
               attrib := some ⟨3, .GL_FLOAT, false, 0, 0, env.VBOs.2⟩, enabled := true,
               source := some ⟨36, secondTriangleVertices, .GL_STATIC_DRAW⟩ }])) ∧
    (∀ code trace, main env fuel = some (code, trace) →
      trace.filter Call.isBufferData =
        [.glBufferData .GL_ARRAY_BUFFER (firstTriangleVertices.length * 4)
           firstTriangleVertices .GL_STATIC_DRAW,
         .glBufferData .GL_ARRAY_BUFFER (secondTriangleVertices.length * 4)
           secondTriangleVertices .GL_STATIC_DRAW] ∧
      (∃ n, 1 ≤ n ∧
        drawRecords st trace = (List.range n).flatMap (fun _ => frameRecords env)) ∧
      { mode := .GL_TRIANGLES, first := 0, count := 3, array := env.VAOs.1,
        attrib := some ⟨3, .GL_FLOAT, false, 0, 0, env.VBOs.1⟩, enabled := true,
        source := some ⟨36, firstTriangleVertices, .GL_STATIC_DRAW⟩ } ∈
          drawRecords st trace ∧
      { mode := .GL_TRIANGLES, first := 0, count := 3, array := env.VAOs.2,
        attrib := some ⟨3, .GL_FLOAT, false, 0, 0, env.VBOs.2⟩, enabled := true,
        source := some ⟨36, secondTriangleVertices, .GL_STATIC_DRAW⟩ } ∈
          drawRecords st trace ∧
      (∀ d ∈ drawRecords st trace, ∃ a b,
        d.attrib = some a ∧ d.source = some b ∧ d.enabled = true ∧
        a.size = 3 ∧ a.type = .GL_FLOAT ∧ a.stride = 0 ∧ a.pointer = 0 ∧
        b.usage = .GL_STATIC_DRAW ∧ b.size = b.data.length * 4 ∧
        d.first = 0 ∧ d.count = 3 ∧ d.count * 12 = b.size ∧ b.data.length = 3 * 3)) := by
  have hup : ∀ n, (setupCalls env ++
      ((List.range n).flatMap (fun k => iterationCalls env env.programName env.VAOs (0 + k)) ++
        [Call.glfwWindowShouldClose]) ++ shutdownCalls env).filter Call.isBufferData =
      [.glBufferData .GL_ARRAY_BUFFER (firstTriangleVertices.length * 4)
         firstTriangleVertices .GL_STATIC_DRAW,
       .glBufferData .GL_ARRAY_BUFFER (secondTriangleVertices.length * 4)
         secondTriangleVertices .GL_STATIC_DRAW] := by
    intro n
    have hs : (setupCalls env).filter Call.isBufferData =
        [.glBufferData .GL_ARRAY_BUFFER 36 firstTriangleVertices .GL_STATIC_DRAW,
         .glBufferData .GL_ARRAY_BUFFER 36 secondTriangleVertices .GL_STATIC_DRAW] := by
      simp only [setupCalls, initCalls, contextCalls, linkCalls, bindVertexData, createShader]
      split_ifs <;> simp [Call.isBufferData]
    have hi : ∀ k, (iterationCalls env env.programName env.VAOs k).filter
        Call.isBufferData = [] := by
      intro k
      simp only [iterationCalls, inputCalls, frameCalls, deliverResizes,
        framebuffer_size_callback]
      split_ifs <;> simp [Call.isBufferData, List.filter_flatMap]
    simp [List.filter_append, List.filter_flatMap, hs, hi, shutdownCalls, Call.isBufferData,
      firstTriangleVertices, secondTriangleVertices]
  refine ⟨fun _ _ _ _ => rfl, rfl, rfl, rfl, rfl, ?_, ?_⟩
  · intro m hfirst hexit hf
    have hloop := renderLoop_run env env.programName env.VAOs m 0 fuel
      (by simpa using hfirst) (by simpa using hexit) hf
    refine ⟨_, by rw [main_normal env fuel hw hg, hloop]; rfl, hup (m + 1), ?_⟩
    rw [drawRecords_normal env (m + 1) st hn]
    rfl
  · intro code trace h
    rw [main_normal env fuel hw hg] at h
    obtain ⟨loop, hl, he⟩ := Option.map_eq_some'.mp h
    obtain ⟨n, rfl⟩ := renderLoop_trace_pos env env.programName env.VAOs fuel 0 loop hl
    have ht := (Prod.mk.inj he).2
    subst ht
    have hd := drawRecords_normal env (n + 1) st hn
    have h0 : 0 ∈ List.range (n + 1) := List.mem_range.mpr (Nat.succ_pos n)
    refine ⟨hup (n + 1), ⟨n + 1, Nat.succ_pos n, hd⟩, ?_, ?_, ?_⟩
    · rw [hd, List.mem_flatMap]
      exact ⟨0, h0, by simp [frameRecords]⟩
    · rw [hd, List.mem_flatMap]
      exact ⟨0, h0, by simp [frameRecords]⟩
    · intro d hdm
      rw [hd] at hdm
      simp only [List.mem_flatMap, frameRecords, List.mem_cons, List.mem_singleton,
        List.not_mem_nil, or_false] at hdm
      obtain ⟨_, -, rfl | rfl⟩ := hdm
      · exact ⟨_, _, rfl, rfl, rfl, rfl, rfl, rfl, rfl, rfl, rfl, rfl, rfl, rfl, rfl⟩
      · exact ⟨_, _, rfl, rfl, rfl, rfl, rfl, rfl, rfl, rfl, rfl, rfl, rfl, rfl, rfl⟩

/-- C6 at the run `closeAfterOneFrame`, with the state of a fresh context:
the run returns, uploads the two meshes with 36 bytes each, and issues one
draw call of 3 vertices for each of them. -/
theorem mesh_upload_matches_draw_witness :
    (main closeAfterOneFrame 2).map
        (fun r => (r.1, r.2.filter Call.isBufferData, drawRecords glInitial r.2)) =
      some (0,
        [.glBufferData .GL_ARRAY_BUFFER 36 firstTriangleVertices .GL_STATIC_DRAW,
         .glBufferData .GL_ARRAY_BUFFER 36 secondTriangleVertices .GL_STATIC_DRAW],
        [{ mode := .GL_TRIANGLES, first := 0, count := 3, array := 1,
           attrib := some ⟨3, .GL_FLOAT, false, 0, 0, 1⟩, enabled := true,
           source := some ⟨36, firstTriangleVertices, .GL_STATIC_DRAW⟩ },
         { mode := .GL_TRIANGLES, first := 0, count := 3, array := 2,
           attrib := some ⟨3, .GL_FLOAT, false, 0, 0, 2⟩, enabled := true,
           source := some ⟨36, secondTriangleVertices, .GL_STATIC_DRAW⟩ }]) := by
  obtain ⟨trace, h1, h2, h3⟩ :=
    (mesh_upload_matches_draw closeAfterOneFrame 2 glInitial rfl rfl (by decide)).2.2.2.2.2.1 0
      (fun k hk => absurd hk (Nat.not_lt_zero k)) (Or.inr rfl) (by decide)
  rw [h1, Option.map_some', h2, h3]
  rfl

/-! ## C7: shader failures are not fatal -/

theorem renderLoop_allSucceed (env : Env) (p : GLuint) (v : GLuint × GLuint) :
    ∀ fuel i w, renderLoop (allSucceed env) p v fuel i w = renderLoop env p v fuel i w
  | 0, _, _ => rfl
  | fuel + 1, i, w => by
    have ih := renderLoop_allSucceed env p v fuel
    have hb : loopBody (allSucceed env) p v i w = loopBody env p v i w := rfl
    rw [renderLoop, renderLoop, hb]
    split_ifs
    · rfl
    · simp only [ih]

/-- C7. `createShader` returns the name `glCreateShader` gave it and
`createShaderProgram` the name `glCreateProgram` gave it, whatever the compile
and link statuses; each fetches the info log and writes a message exactly when
the status it read reports failure.  In a run that gets past the loader, the
exit code and the calls of `main` other than those diagnostics are the same as
in the run where all three statuses report success (which has no diagnostic),
and the run returns within the same fuel. -/
theorem shader_failures_are_not_fatal (env : Env) (fuel : Nat)
    (hw : env.windowCreated = true) (hg : env.gladLoaded = true) :
    (∀ ty src, (createShader env ty src).1 = env.shaderName ty ∧
      (createShader env ty src).2.filter Call.isDiagnostic =
        if env.compileStatus (env.shaderName ty) then []
        else [.glGetShaderInfoLog (env.shaderName ty) 512,
              .cout ("ERROR::SHADER::VERTEX::COMPILATION_FAILED\n" ++
                env.shaderInfoLog (env.shaderName ty) ++ "\n")]) ∧
    (∀ a b, ∃ calls, createShaderProgram env (some [a, b]) 2 = some (env.programName, calls) ∧
      calls.filter Call.isDiagnostic =
        if env.linkStatus env.programName then []
        else [.glGetProgramInfoLog env.programName 512,
              .cout ("ERROR::SHADER::PROGRAM::LINKING_FAILED\n" ++
                env.programInfoLog env.programName ++ "\n")]) ∧
    (main env fuel).map (fun r => (r.1, r.2.filter (fun c => !c.isDiagnostic))) =
      main (allSucceed env) fuel ∧
    (∀ r, main (allSucceed env) fuel = some r → r.2.filter Call.isDiagnostic = []) := by
  have hi : ∀ k, (iterationCalls env env.programName env.VAOs k).filter
      (fun c => !c.isDiagnostic) = iterationCalls env env.programName env.VAOs k := by
    intro k
    simp only [iterationCalls, inputCalls, frameCalls, deliverResizes,
      framebuffer_size_callback]
    split_ifs <;> simp [Call.isDiagnostic, List.filter_flatMap]
  have hs : (setupCalls env).filter (fun c => !c.isDiagnostic) = setupCalls (allSucceed env) := by
    simp only [setupCalls, initCalls, contextCalls, linkCalls, bindVertexData, createShader,
      allSucceed]
    split_ifs <;> simp_all [Call.isDiagnostic]
  have hm : (main env fuel).map (fun r => (r.1, r.2.filter (fun c => !c.isDiagnostic))) =
      main (allSucceed env) fuel := by
    rw [main_normal env fuel hw hg, main_normal (allSucceed env) fuel hw hg]
    show _ = Option.map _ (renderLoop (allSucceed env) env.programName env.VAOs fuel 0 ⟨false⟩)
    rw [renderLoop_allSucceed]
    cases hl : renderLoop env env.programName env.VAOs fuel 0 ⟨false⟩ with
    | none => rfl
    | some loop =>
      obtain ⟨n, rfl⟩ := renderLoop_trace env env.programName env.VAOs fuel 0 _ loop hl
      have hsd : shutdownCalls (allSucceed env) = shutdownCalls env := rfl
      simp [List.filter_append, List.filter_flatMap, hs, hi, hsd]
      simp [shutdownCalls, Call.isDiagnostic]
  refine ⟨?_, ?_, hm, ?_⟩
  · intro ty src
    refine ⟨createShader_fst env ty src, ?_⟩
    cases hc : env.compileStatus (env.shaderName ty) <;>
      simp [createShader, hc, Call.isDiagnostic]
  · intro a b
    refine ⟨_, createShaderProgram_two env a b, ?_⟩
    cases hc : env.linkStatus env.programName <;> simp [linkCalls, hc, Call.isDiagnostic]
  · intro r hr
    rw [← hm] at hr
    obtain ⟨r0, -, rfl⟩ := Option.map_eq_some'.mp hr
    simp [List.filter_filter]

/-- C7 at the run `shadersFail`, where all three statuses report failure: the
exit code is 0 and three diagnostics are emitted (two calls each) on top of the
calls of the run in which everything succeeds. -/
theorem shader_failures_are_not_fatal_witness :
    (main shadersFail 2).map (fun r => (r.1, r.2.filter (fun c => !c.isDiagnostic))) =
      main (allSucceed shadersFail) 2 ∧
    (main shadersFail 2).map (fun r => (r.1, (r.2.filter Call.isDiagnostic).length)) =
      some (0, 6) :=
  ⟨(shader_failures_are_not_fatal shadersFail 2 rfl rfl).2.2.1, by decide⟩

/-! ## C8: the resize callback -/

/-- C8. The framebuffer-size callback issues the single call
`glViewport(0, 0, width, height)`, whatever its arguments, and that is all
`glfwPollEvents` makes the program do for a resize event.  For a framebuffer
size, which is never negative, that call sets the viewport to exactly
`(0, 0, W, H)` and leaves all other modelled state as it was. -/
theorem resize_sets_viewport (st : GLState) (W H : Int) :
    framebuffer_size_callback W H = [.glViewport 0 0 W H] ∧
    deliverResizes [(W, H)] = [.glViewport 0 0 W H] ∧
    (0 ≤ W → 0 ≤ H →
      glExec st (framebuffer_size_callback W H) = { st with viewport := (0, 0, W, H) } ∧
      (glExec st (framebuffer_size_callback W H)).viewport = (0, 0, W, H)) := by
  refine ⟨rfl, rfl, ?_⟩
  intro hW hH
  have h : ¬ (W < 0 ∨ H < 0) := by omega
  simp [framebuffer_size_callback, glExec, glStep, h]

/-- C8 at a resize of a fresh context's window to 1024 by 768. -/
theorem resize_sets_viewport_witness :
    (glExec glInitial (framebuffer_size_callback 1024 768)).viewport = (0, 0, 1024, 768) :=
  ((resize_sets_viewport glInitial 1024 768).2.2 (by decide) (by decide)).2

/-! ## C9: `glfwTerminate` on every return path -/

/-- C9 (the code departs from the claim). When window creation fails, `main`
calls `glfwTerminate` once, last, and returns -1.  When the loader fails,
`main` returns -1 right after writing its message: its calls are the start-up
calls, the context calls and the message (`loaderFailureCalls`), and
`glfwTerminate` is not among them, although `glfwInit` is.  On normal exit `glfwTerminate` is called exactly
once, as the last call. -/
theorem loader_failure_skips_glfwTerminate (env : Env) (fuel : Nat) :
    (env.windowCreated = false →
      main env fuel =
        some (-1, initCalls ++ [.cout "Failed to create GLFW window\n", .glfwTerminate])) ∧
    (env.windowCreated = true → env.gladLoaded = false →
      main env fuel = some (-1, loaderFailureCalls)) ∧
    (Call.glfwInit ∈ loaderFailureCalls ∧
      loaderFailureCalls.filter Call.isTerminate = []) ∧
    (env.windowCreated = true → env.gladLoaded = true →
      ∀ r, main env fuel = some r →
        r.2.filter Call.isTerminate = [.glfwTerminate] ∧
        r.2.getLast? = some .glfwTerminate) := by
  refine ⟨?_, ?_, by decide, ?_⟩
  · intro hw
    simp [main, hw, initCalls, screenWidth, screenHeight, screenTitle]
  · intro hw hg
    simp [main, hw, hg, loaderFailureCalls, initCalls, contextCalls, screenWidth,
      screenHeight, screenTitle]
  · intro hw hg r hr
    rw [main_normal env fuel hw hg] at hr
    obtain ⟨loop, hl, rfl⟩ := Option.map_eq_some'.mp hr
    obtain ⟨n, rfl⟩ := renderLoop_trace env env.programName env.VAOs fuel 0 _ loop hl
    have hs : (setupCalls env).filter Call.isTerminate = [] := by
      simp only [setupCalls, initCalls, contextCalls, linkCalls, bindVertexData, createShader]
      split_ifs <;> simp [Call.isTerminate]
    have hi : ∀ k, (iterationCalls env env.programName env.VAOs k).filter
        Call.isTerminate = [] := by
      intro k
      simp only [iterationCalls, inputCalls, frameCalls, deliverResizes,
        framebuffer_size_callback]
      split_ifs <;> simp [Call.isTerminate, List.filter_flatMap]
    constructor
    · simp [List.filter_append, List.filter_flatMap, hs, hi, shutdownCalls,
        Call.isTerminate]
    · simp [shutdownCalls, List.getLast?_append]

/-- C9 at the run `noLoader`: the nine calls of the run, none of them
`glfwTerminate`. -/
theorem loader_failure_skips_glfwTerminate_witness :
    main noLoader 0 =
      some (-1,
        [.glfwInit,
         .glfwWindowHint .GLFW_CONTEXT_VERSION_MAJOR (.int 3),
         .glfwWindowHint .GLFW_CONTEXT_VERSION_MINOR (.int 3),
         .glfwWindowHint .GLFW_OPENGL_PROFILE (.enum .GLFW_OPENGL_CORE_PROFILE),
         .glfwCreateWindow 800 600 "OpenGL",
         .glfwMakeContextCurrent, .glfwSetFramebufferSizeCallback, .gladLoadGLLoader,
         .cout "Failed to initialize GLAD\n"]) :=
  (loader_failure_skips_glfwTerminate noLoader 0).2.1 rfl rfl

/-! ## C10: `deleteShaders` -/

/-- C10. `deleteShaders(shaders, count)` on a non-null array of at least
`count > 0` names issues `glDeleteShader` for `shaders[0]`, ..., `shaders[count-1]`
in that order and nothing else; with `count <= 0`, or with a null array, it
issues no call.  The one call in `main` passes the default `count = 0`, so no
run of `main` contains a `glDeleteShader` call, although every run that gets
past the loader creates a vertex and a fragment shader. -/
theorem deleteShaders_calls :
    (∀ (arr : List GLuint) (count : Int), 0 < count → count ≤ arr.length →
      deleteShaders (some arr) count = some ((arr.take count.toNat).map .glDeleteShader)) ∧
    (∀ (shaders : Option (List GLuint)) (count : Int), count ≤ 0 →
      deleteShaders shaders count = some []) ∧
    (∀ count : Int, deleteShaders none count = some []) ∧
    (∀ (env : Env) (fuel : Nat) (r : Int × List Call), main env fuel = some r →
      r.2.filter Call.isDeleteShader = []) ∧
    (∀ (env : Env) (fuel : Nat) (r : Int × List Call), main env fuel = some r →
      env.windowCreated = true → env.gladLoaded = true →
      .glCreateShader .GL_VERTEX_SHADER ∈ r.2 ∧ .glCreateShader .GL_FRAGMENT_SHADER ∈ r.2) := by
  refine ⟨?_, ?_, ?_, ?_, ?_⟩
  · intro arr count hpos hle
    have h := forEachShader_eq .glDeleteShader arr count.toNat 0 (by omega)
    simp only [List.drop_zero] at h
    simp [deleteShaders, hpos, h]
  · intro shaders count hle
    cases shaders with
    | none => rfl
    | some arr => simp [deleteShaders, Int.not_lt.mpr hle]
  · intro count; rfl
  · intro env fuel r hr
    cases hw : env.windowCreated with
    | false =>
      simp [main, hw] at hr
      subst hr
      simp [Call.isDeleteShader]
    | true =>
      cases hg : env.gladLoaded with
      | false =>
        simp [main, hw, hg] at hr
        subst hr
        simp [Call.isDeleteShader]
      | true =>
        rw [main_normal env fuel hw hg] at hr
        obtain ⟨loop, hl, rfl⟩ := Option.map_eq_some'.mp hr
        obtain ⟨n, rfl⟩ := renderLoop_trace env env.programName env.VAOs fuel 0 _ loop hl
        have hs : (setupCalls env).filter Call.isDeleteShader = [] := by
          simp only [setupCalls, initCalls, contextCalls, linkCalls, bindVertexData, createShader]
          split_ifs <;> simp [Call.isDeleteShader]
        have hi : ∀ k, (iterationCalls env env.programName env.VAOs k).filter
            Call.isDeleteShader = [] := by
          intro k
          simp only [iterationCalls, inputCalls, frameCalls, deliverResizes,
            framebuffer_size_callback]
          split_ifs <;> simp [Call.isDeleteShader, List.filter_flatMap]
        simp [List.filter_append, List.filter_flatMap, hs, hi, shutdownCalls,
          Call.isDeleteShader]
  · intro env fuel r hr hw hg
    rw [main_normal env fuel hw hg] at hr
    obtain ⟨loop, -, rfl⟩ := Option.map_eq_some'.mp hr
    constructor
    · simp only [setupCalls, createShader]
      split_ifs <;> simp
    · simp only [setupCalls, createShader]
      split_ifs <;> simp

/-- C10 at concrete arguments: with count 2 the first two of three names are
deleted in order, and the call `main` makes (count 0) deletes nothing. -/
theorem deleteShaders_calls_witness :
    deleteShaders (some [7, 8, 9]) 2 = some [.glDeleteShader 7, .glDeleteShader 8] ∧
    deleteShaders (some [7, 8]) 0 = some [] ∧
    (main closeAfterOneFrame 2).map (fun r => r.2.filter Call.isDeleteShader) = some [] :=
  ⟨deleteShaders_calls.1 [7, 8, 9] 2 (by decide) (by decide),
   deleteShaders_calls.2.1 (some [7, 8]) 0 (by decide),
   by decide⟩

end Ex52
